import Mathlib

/-!
Verification development for the chatraj RAG chat server.

The embedding follows the source files:
  flask_api.py, app_fastapi.py            (HTTP surfaces, session tables)
  src/generation_pipeline/generate.py     (RAGChain)
  src/data_pipeline/data_ingestion/document_loader.py (DocumentLoader)
  src/data_pipeline/vectorstores/vectorstore.py       (VectorStoreProvider)

External collaborators (langchain chains, the LLM stream, the splitter,
the embedder, the vector store) are passed in as parameters or modelled
from their contracts where noted.
-/

namespace Chatraj

/-- Role of a chat turn, mirroring langchain HumanMessage / AIMessage. -/
inductive Role where
  | user
  | assistant
deriving DecidableEq, Repr

/-- One chat turn: a role together with the message content. -/
structure Turn where
  role : Role
  content : String
deriving DecidableEq, Repr

/-- A loaded document unit (langchain Document): its page content. -/
structure Document where
  page_content : String
deriving DecidableEq, Repr

/-- One directory entry of the corpus folder as seen by
DocumentLoader.load_documents: the filename, and the documents that the
per-file loader (PyPDFLoader / Docx2txtLoader, external) yields for it. -/
structure FileEntry where
  name : String
  docs : List Document
deriving DecidableEq, Repr

/-- DocumentLoader.load_documents: iterates os.listdir of the folder,
loads files ending in .pdf or .docx, skips (with a warning) every other
file, and returns the accumulated documents.  The folder argument is
none when the directory cannot be listed, in which case os.listdir
raises and the exception propagates. -/
def load_documents : Option (List FileEntry) → Except String (List Document)
  | none => Except.error "FileNotFoundError"
  | some files =>
      Except.ok (files.foldl
        (fun acc f =>
          if f.name.endsWith ".pdf" || f.name.endsWith ".docx" then acc ++ f.docs
          else acc) [])

/-- Per-instance state of a RAGChain object: the instance-level
chat_history field, set to the empty list by RAGChain.__init__ and only
ever modified by update_chat_history. -/
structure RAGChain where
  chat_history : List Turn
deriving DecidableEq, Repr

/-- RAGChain.update_chat_history: extends the chat history with a
HumanMessage holding the user input followed by an AIMessage holding the
model response. -/
def update_chat_history (h : List Turn) (user_input model_response : String) :
    List Turn :=
  h ++ [Turn.mk Role.user user_input, Turn.mk Role.assistant model_response]

/-- Query handed to the retriever by the chain that
RAGChain.run_with_chat_history builds with langchain
create_history_aware_retriever: that chain is a RunnableBranch which
passes the raw input straight to the retriever when chat_history is
falsy (the empty list) and otherwise pipes the contextualize prompt
through the LLM and a string parser.  The llm parameter abstracts the
contextualize-prompt model round trip. -/
def history_aware_retriever_query (llm : String → List String → String)
    (input : String) (chat_history : List String) : String :=
  if chat_history.isEmpty then input else llm input chat_history

/-- Ranking relation on scored chunks: descending relevance score. -/
def scoreGE (a b : Document × Nat) : Prop := b.2 ≤ a.2

instance : DecidableRel scoreGE := fun a b => Nat.decLe b.2 a.2

instance : IsTotal (Document × Nat) scoreGE := ⟨fun a b => Nat.le_total b.2 a.2⟩

instance : IsTrans (Document × Nat) scoreGE := ⟨fun _ _ _ hab hbc => Nat.le_trans hbc hab⟩

/-- Modelled from the spec: the vector-store similarity search is
external to this repository (Chroma / Pinecone); the source reaches it
only through VectorStoreProvider.get_retriever, which returns
vectorstore.as_retriever with search_kwargs carrying k.  Per the spec
contract for the collaborator, the query returns the indexed chunks
ranked by descending relevance score for the query, truncated to the
top k.  The score function abstracts embedding similarity. -/
def similarity_query (score : String → Document → Nat) (index : List Document)
    (q : String) (k : Nat) : List (Document × Nat) :=
  (List.insertionSort scoreGE (index.map (fun d => (d, score q d)))).take k

/-- VectorStoreProvider.get_retriever: builds the retriever over the
current index; the k parameter defaults to 5 in the source signature
(RAGChain.initialize_chain also passes k equal to 5 explicitly). -/
def get_retriever (score : String → Document → Nat) (index : List Document)
    (k : Nat := 5) : String → List (Document × Nat) :=
  fun q => similarity_query score index q k

/-- Global server state of either app module: the rag_chains table
mapping session id to RAGChain instance and the chat_histories table
mapping session id to stored history, both module-level dicts. -/
structure ServerState where
  rag_chains : List (String × RAGChain)
  chat_histories : List (String × List Turn)
deriving DecidableEq, Repr

/-- Dictionary lookup by session id. -/
def lookupSid {α : Type} (sid : String) : List (String × α) → Option α
  | [] => none
  | (k, v) :: rest => if sid = k then some v else lookupSid sid rest

/-- State at module import: both tables empty. -/
def initialState : ServerState := ServerState.mk [] []

/-- Body of an HTTP response: a JSON object or a stream of fragments. -/
inductive Body where
  | json (fields : List (String × String))
  | stream (fragments : List String)
deriving DecidableEq, Repr

/-- HTTP response as observed by a client. -/
structure HttpResponse where
  status : Nat
  contentType : String
  body : Body
deriving DecidableEq, Repr

/-- A JSON response with the given status and object fields. -/
def jsonResponse (status : Nat) (fields : List (String × String)) : HttpResponse :=
  HttpResponse.mk status "application/json" (Body.json fields)

/-- Error message used by both surfaces for an unknown session id. -/
def sessionNotFoundMsg : String :=
  "Session ID not found. Please initialize the RAGChain first."

/-- One event of the underlying lazy rag_chain.stream iterator during a
stream call: either it yields a chunk whose answer field is s (via
chunk.get with empty-string default), or it raises an exception whose
description is e.  Question rewriting and retrieval run lazily inside
this iterator, so a fault in either appears as a fail event before any
chunk event. -/
inductive StreamEvent where
  | chunk (s : String)
  | fail (e : String)
deriving DecidableEq, Repr

/-- generate_stream inside flask_api.stream_response: iterates the
underlying stream inside a try block, yielding each chunk followed by a
newline; on an exception it yields a single sentinel fragment built from
the literal Error prefix and the description followed by a newline, and
the generator ends (later events are never reached). -/
def flask_generate_stream : List StreamEvent → List String
  | [] => []
  | StreamEvent.chunk c :: rest => (c ++ "\n") :: flask_generate_stream rest
  | StreamEvent.fail e :: _ => ["Error: " ++ e ++ "\n"]

/-- generate_stream inside app_fastapi.stream_response: same loop, but
the sentinel fragment has no trailing newline. -/
def fastapi_generate_stream : List StreamEvent → List String
  | [] => []
  | StreamEvent.chunk c :: rest => (c ++ "\n") :: fastapi_generate_stream rest
  | StreamEvent.fail e :: _ => ["Error: " ++ e]

/-- flask_api.stream_response: session_id is read with request.form.get
(none when absent), question likewise, chat_history with getlist.  When
session_id is falsy (absent or empty) or not a key of rag_chains, the
endpoint returns the JSON error with status 400; otherwise it returns a
200 text/plain streaming response over generate_stream.  The events
parameter is the trace of the underlying lazy langchain stream for this
call.  The second component is the resulting server state. -/
def flask_stream_response (st : ServerState) (session_id : Option String)
    (question : String) (chat_history : List String)
    (events : List StreamEvent) : HttpResponse × ServerState :=
  match session_id with
  | none => (jsonResponse 400 [("error", sessionNotFoundMsg)], st)
  | some sid =>
      if sid = "" then (jsonResponse 400 [("error", sessionNotFoundMsg)], st)
      else
        match lookupSid sid st.rag_chains with
        | none => (jsonResponse 400 [("error", sessionNotFoundMsg)], st)
        | some _ =>
            (HttpResponse.mk 200 "text/plain"
              (Body.stream (flask_generate_stream events)), st)

/-- app_fastapi.stream_response: session_id and question are required
form fields; when session_id is not a key of rag_chains the endpoint
returns a plain dict, which FastAPI serialises as a 200 JSON response;
otherwise a 200 text/event-stream streaming response. -/
def fastapi_stream_response (st : ServerState) (session_id question : String)
    (chat_history : List String) (events : List StreamEvent) :
    HttpResponse × ServerState :=
  match lookupSid session_id st.rag_chains with
  | none => (jsonResponse 200 [("error", sessionNotFoundMsg)], st)
  | some _ =>
      (HttpResponse.mk 200 "text/event-stream"
        (Body.stream (fastapi_generate_stream events)), st)

/-- flask_api.initialize_chain: rejects a request without a file part or
with an empty filename (400 JSON error); otherwise saves the file and
runs RAGChain.initialize_chain, i.e. load_documents followed by the
downstream collaborators (splitter, embedder, vector store, model and
prompt setup), abstracted by the down parameter.  If any step raises,
the exception propagates out of the endpoint (first component
Except.error) and the tables are untouched; on success the fresh session
id is inserted into both tables, rag_chains first, and a 200 JSON body
with the message and the session id is returned. -/
def flask_initialize_chain (st : ServerState) (file : Option String)
    (sid : String) (folder : Option (List FileEntry))
    (down : List Document → Except String Unit) :
    Except String HttpResponse × ServerState :=
  match file with
  | none => (Except.ok (jsonResponse 400 [("error", "No file part in the request.")]), st)
  | some fname =>
      if fname = "" then
        (Except.ok (jsonResponse 400 [("error", "No selected file.")]), st)
      else
        match (load_documents folder).bind down with
        | Except.error e => (Except.error e, st)
        | Except.ok _ =>
            (Except.ok (jsonResponse 200
                [("message", "RAGChain initialized with file: " ++ fname),
                 ("session_id", sid)]),
             ServerState.mk (st.rag_chains ++ [(sid, RAGChain.mk [])])
               (st.chat_histories ++ [(sid, [])]))

/-- app_fastapi.initialize_chain: same pipeline without the file-part
and empty-filename checks. -/
def fastapi_initialize_chain (st : ServerState) (fname sid : String)
    (folder : Option (List FileEntry))
    (down : List Document → Except String Unit) :
    Except String HttpResponse × ServerState :=
  match (load_documents folder).bind down with
  | Except.error e => (Except.error e, st)
  | Except.ok _ =>
      (Except.ok (jsonResponse 200
          [("message", "RAGChain initialized with file: " ++ fname),
           ("session_id", sid)]),
       ServerState.mk (st.rag_chains ++ [(sid, RAGChain.mk [])])
         (st.chat_histories ++ [(sid, [])]))

/-- One server operation: a request to either surface, with the
behaviour of the external collaborators for that request supplied as
data. -/
inductive Op where
  | flaskInit (file : Option String) (sid : String)
      (folder : Option (List FileEntry))
      (down : List Document → Except String Unit)
  | flaskStream (session_id : Option String) (question : String)
      (chat_history : List String) (events : List StreamEvent)
  | fastapiInit (fname sid : String) (folder : Option (List FileEntry))
      (down : List Document → Except String Unit)
  | fastapiStream (session_id question : String)
      (chat_history : List String) (events : List StreamEvent)

/-- State transition of one operation. -/
def runOp (st : ServerState) : Op → ServerState
  | Op.flaskInit file sid folder down => (flask_initialize_chain st file sid folder down).2
  | Op.flaskStream sid q ch ev => (flask_stream_response st sid q ch ev).2
  | Op.fastapiInit fname sid folder down => (fastapi_initialize_chain st fname sid folder down).2
  | Op.fastapiStream sid q ch ev => (fastapi_stream_response st sid q ch ev).2

/-- State after a sequence of operations. -/
def runOps (st : ServerState) : List Op → ServerState
  | [] => st
  | op :: rest => runOps (runOp st op) rest

/-- A server state with one bound session, used as a concrete input. -/
def st1 : ServerState :=
  ServerState.mk [("s1", RAGChain.mk [])] [("s1", [])]

/-- Helper: the Flask generator on a trace of chunks followed by a fault
yields every chunk fragment in order and then the single sentinel. -/
theorem flask_generate_stream_fault (chunks : List String) (e : String)
    (rest : List StreamEvent) :
    flask_generate_stream (chunks.map StreamEvent.chunk ++ StreamEvent.fail e :: rest)
      = chunks.map (fun c => c ++ "\n") ++ ["Error: " ++ e ++ "\n"] := by
  induction chunks with
  | nil => rfl
  | cons c cs ih => simp [flask_generate_stream, ih]

/-- Helper: the FastAPI generator on a trace of chunks followed by a
fault yields every chunk fragment in order and then the sentinel
without a trailing newline. -/
theorem fastapi_generate_stream_fault (chunks : List String) (e : String)
    (rest : List StreamEvent) :
    fastapi_generate_stream (chunks.map StreamEvent.chunk ++ StreamEvent.fail e :: rest)
      = chunks.map (fun c => c ++ "\n") ++ ["Error: " ++ e] := by
  induction chunks with
  | nil => rfl
  | cons c cs ih => simp [fastapi_generate_stream, ih]

/-- Helper: on a fault-free trace the Flask generator yields each chunk
followed by a newline. -/
theorem flask_generate_stream_ok (chunks : List String) :
    flask_generate_stream (chunks.map StreamEvent.chunk)
      = chunks.map (fun c => c ++ "\n") := by
  induction chunks with
  | nil => rfl
  | cons c cs ih => simp [flask_generate_stream, ih]

/-- Helper: on a fault-free trace the FastAPI generator yields each
chunk followed by a newline. -/
theorem fastapi_generate_stream_ok (chunks : List String) :
    fastapi_generate_stream (chunks.map StreamEvent.chunk)
      = chunks.map (fun c => c ++ "\n") := by
  induction chunks with
  | nil => rfl
  | cons c cs ih => simp [fastapi_generate_stream, ih]

/-- Helper: the Flask stream endpoint never modifies the server state. -/
theorem flask_stream_response_state (st : ServerState) (session_id : Option String)
    (question : String) (chat_history : List String) (events : List StreamEvent) :
    (flask_stream_response st session_id question chat_history events).2 = st := by
  rcases session_id with _ | s
  · rfl
  · rcases h : lookupSid s st.rag_chains with _ | c <;>
      by_cases hs : s = "" <;>
      simp [flask_stream_response, h, hs]

/-- Helper: the FastAPI stream endpoint never modifies the server state. -/
theorem fastapi_stream_response_state (st : ServerState) (session_id question : String)
    (chat_history : List String) (events : List StreamEvent) :
    (fastapi_stream_response st session_id question chat_history events).2 = st := by
  rcases h : lookupSid session_id st.rag_chains with _ | c <;>
    simp [fastapi_stream_response, h]

/-- Claim C1, evaluated at the failing input: after one initialize and
one successful, fully consumed stream call, the stored chat history of
the session is still the empty list (length 0, not 2); the
update_chat_history method, which the stream path never calls (the call
is commented out in the source), would append exactly one user turn and
one assistant turn. -/
theorem claim_C1_history_never_grows :
    lookupSid "s1" (runOps initialState
      [Op.flaskInit (some "notes.pdf") "s1"
          (some [FileEntry.mk "notes.pdf" [Document.mk "The sky is blue."]])
          (fun _ => Except.ok ()),
       Op.flaskStream (some "s1") "What color is the sky?" []
          [StreamEvent.chunk "The sky", StreamEvent.chunk " is blue."]]).chat_histories
      = some ([] : List Turn)
    ∧ update_chat_history [] "What color is the sky?" "The sky is blue."
      = [Turn.mk Role.user "What color is the sky?",
         Turn.mk Role.assistant "The sky is blue."] :=
  And.intro rfl rfl

/-- Claim C2 counterexample: a collaborator fault before any chunk (the
rewriting or retrieval step raising inside the lazy stream) does not
abort the call with no observable output: the caller receives a stream
whose fragment list is the one-element sentinel list, not the empty
list, refuting that no output fragment is observed. -/
theorem claim_C2_counterexample :
    (flask_stream_response st1 (some "s1") "q" [] [StreamEvent.fail "boom"]).1.body
      = Body.stream ["Error: " ++ "boom" ++ "\n"]
    ∧ (["Error: " ++ "boom" ++ "\n"] : List String) ≠ [] :=
  And.intro rfl (List.cons_ne_nil _ _)

/-- Claim C2 amended: when the rewriting or retrieval step raises, the
caller observes exactly one fragment, the error sentinel carrying the
description (with a trailing newline on the Flask surface, without one
on the FastAPI surface), and the server state, including every stored
history, is unchanged. -/
theorem claim_C2_amended (st : ServerState) (sid question : String)
    (chat_history : List String) (e : String)
    (hsid : sid ≠ "") (hmem : lookupSid sid st.rag_chains ≠ none) :
    (flask_stream_response st (some sid) question chat_history
        [StreamEvent.fail e]).1.body = Body.stream ["Error: " ++ e ++ "\n"]
    ∧ (flask_stream_response st (some sid) question chat_history
        [StreamEvent.fail e]).2 = st
    ∧ (fastapi_stream_response st sid question chat_history
        [StreamEvent.fail e]).1.body = Body.stream ["Error: " ++ e]
    ∧ (fastapi_stream_response st sid question chat_history
        [StreamEvent.fail e]).2 = st := by
  rcases h : lookupSid sid st.rag_chains with _ | c
  · exact absurd h hmem
  · refine ⟨?_, ?_, ?_, ?_⟩ <;>
      simp [flask_stream_response, fastapi_stream_response, h, hsid,
        flask_generate_stream, fastapi_generate_stream]

/-- Claim C2 amended, witness at a concrete state and fault. -/
theorem claim_C2_amended_witness :
    (flask_stream_response st1 (some "s1") "q" [] [StreamEvent.fail "boom"]).1.body
      = Body.stream ["Error: " ++ "boom" ++ "\n"]
    ∧ (flask_stream_response st1 (some "s1") "q" [] [StreamEvent.fail "boom"]).2 = st1
    ∧ (fastapi_stream_response st1 "s1" "q" [] [StreamEvent.fail "boom"]).1.body
      = Body.stream ["Error: " ++ "boom"]
    ∧ (fastapi_stream_response st1 "s1" "q" [] [StreamEvent.fail "boom"]).2 = st1 :=
  claim_C2_amended st1 "s1" "q" [] "boom" (by decide) (by decide)

/-- Claim C3: when the underlying model stream raises after yielding
some chunks, the endpoint still returns a 200 streaming response whose
fragment list preserves every earlier fragment in order and ends with
exactly one sentinel fragment made of the Error prefix and the
description; the exception never crosses the sequence boundary, on both
surfaces. -/
theorem claim_C3_midstream_fault (st : ServerState) (sid question : String)
    (chat_history chunks : List String) (e : String) (rest : List StreamEvent)
    (hsid : sid ≠ "") (hmem : lookupSid sid st.rag_chains ≠ none) :
    (flask_stream_response st (some sid) question chat_history
        (chunks.map StreamEvent.chunk ++ StreamEvent.fail e :: rest)).1
      = HttpResponse.mk 200 "text/plain"
          (Body.stream (chunks.map (fun c => c ++ "\n") ++ ["Error: " ++ e ++ "\n"]))
    ∧ (fastapi_stream_response st sid question chat_history
        (chunks.map StreamEvent.chunk ++ StreamEvent.fail e :: rest)).1
      = HttpResponse.mk 200 "text/event-stream"
          (Body.stream (chunks.map (fun c => c ++ "\n") ++ ["Error: " ++ e])) := by
  rcases h : lookupSid sid st.rag_chains with _ | c
  · exact absurd h hmem
  · constructor
    · simp [flask_stream_response, h, hsid, flask_generate_stream_fault]
    · simp [fastapi_stream_response, h, fastapi_generate_stream_fault]

/-- Claim C3, witness: one chunk delivered, then a fault. -/
theorem claim_C3_midstream_fault_witness :
    (flask_stream_response st1 (some "s1") "q" []
        (List.map StreamEvent.chunk ["The sky"] ++ StreamEvent.fail "boom" :: [])).1
      = HttpResponse.mk 200 "text/plain"
          (Body.stream (List.map (fun c => c ++ "\n") ["The sky"]
            ++ ["Error: " ++ "boom" ++ "\n"]))
    ∧ (fastapi_stream_response st1 "s1" "q" []
        (List.map StreamEvent.chunk ["The sky"] ++ StreamEvent.fail "boom" :: [])).1
      = HttpResponse.mk 200 "text/event-stream"
          (Body.stream (List.map (fun c => c ++ "\n") ["The sky"]
            ++ ["Error: " ++ "boom"])) :=
  claim_C3_midstream_fault st1 "s1" "q" [] ["The sky"] "boom" []
    (by decide) (by decide)

/-- Claim C4: a session id that is not a key of the session table makes
both surfaces answer immediately with the structured JSON
session-not-found error — a JSON body, not a stream — and leave the
server state unchanged, so no session state is created or modified. -/
theorem claim_C4_session_not_found (st : ServerState) (sid question : String)
    (chat_history : List String) (events : List StreamEvent)
    (hmem : lookupSid sid st.rag_chains = none) :
    (flask_stream_response st (some sid) question chat_history events).1
      = jsonResponse 400 [("error", sessionNotFoundMsg)]
    ∧ (flask_stream_response st (some sid) question chat_history events).2 = st
    ∧ (fastapi_stream_response st sid question chat_history events).1
      = jsonResponse 200 [("error", sessionNotFoundMsg)]
    ∧ (fastapi_stream_response st sid question chat_history events).2 = st := by
  by_cases hs : sid = ""
  · subst hs
    simp [flask_stream_response, fastapi_stream_response, hmem]
  · simp [flask_stream_response, fastapi_stream_response, hmem, hs]

/-- Claim C4, witness: an id never bound in the empty session table. -/
theorem claim_C4_session_not_found_witness :
    (flask_stream_response initialState (some "ghost") "q" [] []).1
      = jsonResponse 400 [("error", sessionNotFoundMsg)]
    ∧ (flask_stream_response initialState (some "ghost") "q" [] []).2 = initialState
    ∧ (fastapi_stream_response initialState "ghost" "q" [] []).1
      = jsonResponse 200 [("error", sessionNotFoundMsg)]
    ∧ (fastapi_stream_response initialState "ghost" "q" [] []).2 = initialState :=
  claim_C4_session_not_found initialState "ghost" "q" [] [] rfl

/-- Claim C5: for every model behaviour and every non-empty question,
the history-aware retriever chain built by run_with_chat_history passes
the raw question through unchanged to retrieval when the chat history
is empty. -/
theorem claim_C5_empty_history_passthrough (llm : String → List String → String)
    (q : String) (hq : q ≠ "") :
    history_aware_retriever_query llm q [] = q := rfl

/-- Claim C5, witness at a concrete question and model. -/
theorem claim_C5_empty_history_passthrough_witness :
    history_aware_retriever_query (fun a _ => a ++ "?") "What color is the sky?" []
      = "What color is the sky?" :=
  claim_C5_empty_history_passthrough (fun a _ => a ++ "?")
    "What color is the sky?" (by decide)

/-- Claim C6 counterexample: an empty corpus folder is not rejected by
ingestion — load_documents returns the empty document list without
raising — and when the downstream collaborators accept it the initialize
endpoint succeeds, returning a session id and binding the session in
both tables, refuting that createSession fails with IngestionError and
returns no session id for every empty corpus. -/
theorem claim_C6_counterexample :
    load_documents (some []) = Except.ok []
    ∧ (flask_initialize_chain initialState (some "empty.pdf") "s1" (some [])
        (fun _ => Except.ok ())).1
      = Except.ok (jsonResponse 200
          [("message", "RAGChain initialized with file: " ++ "empty.pdf"),
           ("session_id", "s1")])
    ∧ (flask_initialize_chain initialState (some "empty.pdf") "s1" (some [])
        (fun _ => Except.ok ())).2
      = ServerState.mk [("s1", RAGChain.mk [])] [("s1", [])] :=
  ⟨rfl, rfl, rfl⟩

/-- Claim C6 amended: when ingestion raises — the corpus folder is
unreadable, or the splitter, embedder or vector store fails — both
initialize endpoints propagate the error: no success body and no session
id are produced and both session tables are unchanged; an empty corpus
by itself, however, is not rejected by the loader. -/
theorem claim_C6_amended (st : ServerState) (fname sid : String)
    (folder : Option (List FileEntry)) (down : List Document → Except String Unit)
    (e : String) (hname : fname ≠ "")
    (hfail : (load_documents folder).bind down = Except.error e) :
    (flask_initialize_chain st (some fname) sid folder down).1 = Except.error e
    ∧ (flask_initialize_chain st (some fname) sid folder down).2 = st
    ∧ (fastapi_initialize_chain st fname sid folder down).1 = Except.error e
    ∧ (fastapi_initialize_chain st fname sid folder down).2 = st := by
  refine ⟨?_, ?_, ?_, ?_⟩ <;>
    simp [flask_initialize_chain, fastapi_initialize_chain, hname, hfail]

/-- Claim C6 amended, witness: an unreadable corpus folder. -/
theorem claim_C6_amended_witness :
    (flask_initialize_chain initialState (some "f.pdf") "s1" none
        (fun _ => Except.ok ())).1 = Except.error "FileNotFoundError"
    ∧ (flask_initialize_chain initialState (some "f.pdf") "s1" none
        (fun _ => Except.ok ())).2 = initialState
    ∧ (fastapi_initialize_chain initialState "f.pdf" "s1" none
        (fun _ => Except.ok ())).1 = Except.error "FileNotFoundError"
    ∧ (fastapi_initialize_chain initialState "f.pdf" "s1" none
        (fun _ => Except.ok ())).2 = initialState :=
  claim_C6_amended initialState "f.pdf" "s1" none (fun _ => Except.ok ())
    "FileNotFoundError" (by decide) rfl

/-- Claim C7 counterexample: the two surfaces are not behaviourally
equivalent at concrete requests: on an unknown session id Flask answers
status 400 while FastAPI answers status 200; on a bound session the
stream content types differ; and on a mid-stream fault the Flask
sentinel fragment carries a trailing newline while the FastAPI one does
not, so the stream bodies differ. -/
theorem claim_C7_counterexample :
    (flask_stream_response initialState (some "s1") "q" [] []).1.status = 400
    ∧ (fastapi_stream_response initialState "s1" "q" [] []).1.status = 200
    ∧ (flask_stream_response st1 (some "s1") "q" [] []).1.contentType = "text/plain"
    ∧ (fastapi_stream_response st1 "s1" "q" [] []).1.contentType = "text/event-stream"
    ∧ (flask_stream_response st1 (some "s1") "q" [] [StreamEvent.fail "x"]).1.body
      = Body.stream ["Error: " ++ "x" ++ "\n"]
    ∧ (fastapi_stream_response st1 "s1" "q" [] [StreamEvent.fail "x"]).1.body
      = Body.stream ["Error: " ++ "x"]
    ∧ Body.stream ["Error: " ++ "x" ++ "\n"] ≠ Body.stream ["Error: " ++ "x"] :=
  ⟨rfl, rfl, rfl, rfl, rfl, rfl, by decide⟩

/-- Claim C7 amended: the two surfaces agree on the fragment bodies of a
fault-free stream (each chunk followed by a newline) and on the JSON
error payload for an unknown session, but they are not equivalent: the
stream content types differ (text/plain against text/event-stream), the
unknown-session error status differs (400 against 200), and the
mid-stream error sentinel differs by a trailing newline. -/
theorem claim_C7_amended (st : ServerState) (sid sid2 question : String)
    (chat_history chunks : List String)
    (hsid : sid ≠ "") (hmem : lookupSid sid st.rag_chains ≠ none)
    (hmem2 : lookupSid sid2 st.rag_chains = none) :
    (flask_stream_response st (some sid) question chat_history
        (chunks.map StreamEvent.chunk)).1.body
      = Body.stream (chunks.map (fun c => c ++ "\n"))
    ∧ (fastapi_stream_response st sid question chat_history
        (chunks.map StreamEvent.chunk)).1.body
      = Body.stream (chunks.map (fun c => c ++ "\n"))
    ∧ (flask_stream_response st (some sid) question chat_history
        (chunks.map StreamEvent.chunk)).1.contentType = "text/plain"
    ∧ (fastapi_stream_response st sid question chat_history
        (chunks.map StreamEvent.chunk)).1.contentType = "text/event-stream"
    ∧ (flask_stream_response st (some sid2) question chat_history []).1
      = jsonResponse 400 [("error", sessionNotFoundMsg)]
    ∧ (fastapi_stream_response st sid2 question chat_history []).1
      = jsonResponse 200 [("error", sessionNotFoundMsg)] := by
  rcases h : lookupSid sid st.rag_chains with _ | c
  · exact absurd h hmem
  · by_cases hs2 : sid2 = ""
    · subst hs2
      refine ⟨?_, ?_, ?_, ?_, ?_, ?_⟩ <;>
        simp [flask_stream_response, fastapi_stream_response, h, hsid, hmem2,
          flask_generate_stream_ok, fastapi_generate_stream_ok]
    · refine ⟨?_, ?_, ?_, ?_, ?_, ?_⟩ <;>
        simp [flask_stream_response, fastapi_stream_response, h, hsid, hmem2, hs2,
          flask_generate_stream_ok, fastapi_generate_stream_ok]

/-- Claim C7 amended, witness at a concrete bound session, chunk list
and unknown session id. -/
theorem claim_C7_amended_witness :
    (flask_stream_response st1 (some "s1") "q" []
        (List.map StreamEvent.chunk ["a", "b"])).1.body
      = Body.stream (List.map (fun c => c ++ "\n") ["a", "b"])
    ∧ (fastapi_stream_response st1 "s1" "q" []
        (List.map StreamEvent.chunk ["a", "b"])).1.body
      = Body.stream (List.map (fun c => c ++ "\n") ["a", "b"])
    ∧ (flask_stream_response st1 (some "s1") "q" []
        (List.map StreamEvent.chunk ["a", "b"])).1.contentType = "text/plain"
    ∧ (fastapi_stream_response st1 "s1" "q" []
        (List.map StreamEvent.chunk ["a", "b"])).1.contentType = "text/event-stream"
    ∧ (flask_stream_response st1 (some "ghost") "q" [] []).1
      = jsonResponse 400 [("error", sessionNotFoundMsg)]
    ∧ (fastapi_stream_response st1 "ghost" "q" [] []).1
      = jsonResponse 200 [("error", sessionNotFoundMsg)] :=
  claim_C7_amended st1 "s1" "ghost" "q" [] ["a", "b"]
    (by decide) (by decide) (by decide)

/-- Claim C8: for every scoring function, index, query and positive k,
the retrieval result holds at most k ranked chunks, is sorted by
descending relevance score, an empty index yields the empty result
rather than an error, and the k parameter of get_retriever defaults to
5, the value RAGChain.initialize_chain also passes explicitly. -/
theorem claim_C8_retrieval (score : String → Document → Nat)
    (index : List Document) (q : String) (k : Nat) (hk : 0 < k) :
    (similarity_query score index q k).length ≤ k
    ∧ List.Sorted scoreGE (similarity_query score index q k)
    ∧ similarity_query score [] q k = []
    ∧ get_retriever score index = fun q2 => similarity_query score index q2 5 := by
  refine ⟨?_, ?_, ?_, rfl⟩
  · simp [similarity_query, List.length_take]
  · exact List.Pairwise.sublist (List.take_sublist _ _)
      (List.sorted_insertionSort scoreGE _)
  · simp [similarity_query]

/-- Claim C8, witness at a concrete index, query and the default k. -/
theorem claim_C8_retrieval_witness :
    (similarity_query (fun _ d => d.page_content.length)
        [Document.mk "sky", Document.mk "the blue sky"] "sky" 5).length ≤ 5
    ∧ List.Sorted scoreGE (similarity_query (fun _ d => d.page_content.length)
        [Document.mk "sky", Document.mk "the blue sky"] "sky" 5)
    ∧ similarity_query (fun _ d => d.page_content.length) [] "sky" 5 = []
    ∧ get_retriever (fun _ d => d.page_content.length)
        [Document.mk "sky", Document.mk "the blue sky"]
      = fun q2 => similarity_query (fun _ d => d.page_content.length)
          [Document.mk "sky", Document.mk "the blue sky"] q2 5 :=
  claim_C8_retrieval (fun _ d => d.page_content.length)
    [Document.mk "sky", Document.mk "the blue sky"] "sky" 5 (by decide)

/-- Helper: one operation keeps every stored chat history empty. -/
theorem runOp_histories_empty (st : ServerState) (op : Op)
    (h : st.chat_histories.all (fun p => p.2.isEmpty) = true) :
    (runOp st op).chat_histories.all (fun p => p.2.isEmpty) = true := by
  cases op with
  | flaskInit file sid folder down =>
      rcases file with _ | fname
      · exact h
      · by_cases hf : fname = ""
        · simpa [runOp, flask_initialize_chain, hf] using h
        · rcases hres : (load_documents folder).bind down with e | u
          · simpa [runOp, flask_initialize_chain, hf, hres] using h
          · simp [runOp, flask_initialize_chain, hf, hres, List.all_append, h]
  | flaskStream sid q ch ev =>
      simpa [runOp, flask_stream_response_state] using h
  | fastapiInit fname sid folder down =>
      rcases hres : (load_documents folder).bind down with e | u
      · simpa [runOp, fastapi_initialize_chain, hres] using h
      · simp [runOp, fastapi_initialize_chain, hres, List.all_append, h]
  | fastapiStream sid q ch ev =>
      simpa [runOp, fastapi_stream_response_state] using h

/-- Helper: a sequence of operations keeps every stored chat history
empty. -/
theorem runOps_histories_empty (ops : List Op) :
    ∀ st : ServerState, st.chat_histories.all (fun p => p.2.isEmpty) = true →
      (runOps st ops).chat_histories.all (fun p => p.2.isEmpty) = true := by
  induction ops with
  | nil => exact fun st h => h
  | cons op rest ih => exact fun st h => ih _ (runOp_histories_empty st op h)

/-- Claim C9: the stream endpoints never read or write the server-side
tables — both return the state unchanged for every request — and under
every sequence of operations on either surface every stored per-session
chat history is still the empty list created at initialization; the
rewriting input is only the request-supplied chat_history. -/
theorem claim_C9_history_table_frame :
    (∀ (st : ServerState) (session_id : Option String) (sid2 question : String)
        (chat_history : List String) (events : List StreamEvent),
      (flask_stream_response st session_id question chat_history events).2 = st
      ∧ (fastapi_stream_response st sid2 question chat_history events).2 = st)
    ∧ ∀ ops : List Op,
        ((runOps initialState ops).chat_histories).all (fun p => p.2.isEmpty)
          = true := by
  constructor
  · exact fun st session_id sid2 question chat_history events =>
      ⟨flask_stream_response_state st session_id question chat_history events,
       fastapi_stream_response_state st sid2 question chat_history events⟩
  · exact fun ops => runOps_histories_empty ops initialState rfl

/-- Helper: one operation preserves equality of the key lists of the
two session tables. -/
theorem runOp_keys (st : ServerState) (op : Op)
    (h : st.rag_chains.map Prod.fst = st.chat_histories.map Prod.fst) :
    (runOp st op).rag_chains.map Prod.fst
      = (runOp st op).chat_histories.map Prod.fst := by
  cases op with
  | flaskInit file sid folder down =>
      rcases file with _ | fname
      · exact h
      · by_cases hf : fname = ""
        · simpa [runOp, flask_initialize_chain, hf] using h
        · rcases hres : (load_documents folder).bind down with e | u
          · simpa [runOp, flask_initialize_chain, hf, hres] using h
          · simp [runOp, flask_initialize_chain, hf, hres, h]
  | flaskStream sid q ch ev =>
      simpa [runOp, flask_stream_response_state] using h
  | fastapiInit fname sid folder down =>
      rcases hres : (load_documents folder).bind down with e | u
      · simpa [runOp, fastapi_initialize_chain, hres] using h
      · simp [runOp, fastapi_initialize_chain, hres, h]
  | fastapiStream sid q ch ev =>
      simpa [runOp, fastapi_stream_response_state] using h

/-- Helper: a sequence of operations preserves equality of the key
lists of the two session tables. -/
theorem runOps_keys (ops : List Op) :
    ∀ st : ServerState,
      st.rag_chains.map Prod.fst = st.chat_histories.map Prod.fst →
      (runOps st ops).rag_chains.map Prod.fst
        = (runOps st ops).chat_histories.map Prod.fst := by
  induction ops with
  | nil => exact fun st h => h
  | cons op rest ih => exact fun st h => ih _ (runOp_keys st op h)

/-- Claim C10: after every sequence of initialize and stream operations
starting from the empty tables, the list of session ids keying the
rag_chains table equals the list keying the chat_histories table: each
successful initialize appends the same fresh id to both, a failed
initialize touches neither, and no operation removes an entry. -/
theorem claim_C10_table_keys (ops : List Op) :
    (runOps initialState ops).rag_chains.map Prod.fst
      = (runOps initialState ops).chat_histories.map Prod.fst :=
  runOps_keys ops initialState rfl

end Chatraj
